import Mathlib

/-!
Verification development for the `TextBitmap` class of the nunuStudio
repository (`source/core/objects/text/TextBitmap.js`-style file).

`TextBitmap` is a mesh object that owns a BMFont layout configuration, a
geometry produced by the external `three-bmfont-text` layout engine, and a
shader material.  The embedding below translates that file:

* JavaScript config objects are mutable shared records; we model the heap of
  config objects as a `Store : Ref → Config` and a `TextBitmap` holds a
  `configRef` into it (the JS `this.config = config` stores a reference).
* The external layout engine (`createGeometry` from three-bmfont-text and the
  `geometry.update(config)` entry point) is abstract: the whole development is
  parametric in a function `layout : Config → G` giving the vertex/UV data the
  engine produces for a config.  `Geometry` pairs that data with a counter
  `updateCount` of how many times `TextBitmap` code invoked the engine's
  `update` regeneration routine.
* Numbers that the class merely stores and forwards (widths, spacings, the
  uniform scalars) are modelled as `ℚ`; no arithmetic is performed on them by
  the class itself.  Colors are modelled by their hex value.
* The constructor's `throw` is an `Except.error`.
-/

set_option autoImplicit false

namespace NunuStudio

/-- Common block of a parsed BMFont file; `TextBitmap` itself reads only the
base line height (`config.font.common.lineHeight`). -/
structure FontCommon where
  lineHeight : ℚ
deriving DecidableEq, Inhabited

/-- Parsed BMFont font data.  Besides the `common` block read by the
constructor, a font holds glyph/atlas tables consumed only by the external
layout engine; they are abstracted into the opaque `glyphs` handle so that
distinct fonts stay distinct. -/
structure Font where
  common : FontCommon
  glyphs : Nat
deriving DecidableEq, Inhabited

/-- BMFont text configuration object, as documented on the `config` attribute
of `TextBitmap`: `font`, `text`, `width`, `align`, `lineHeight`,
`letterSpacing`, plus the word-wrapper options `mode`, `tabSize`, `start`,
`end` that the class forwards untouched to the layout engine.  Every field is
optional (`undefined` is `none`); the constructor fills defaults in. -/
structure Config where
  font : Option Font
  text : Option String
  width : Option ℚ
  align : Option String
  lineHeight : Option ℚ
  letterSpacing : Option ℚ
  mode : Option String
  tabSize : Option ℚ
  start : Option ℚ
  «end» : Option ℚ
deriving DecidableEq, Inhabited

/-- Address of a shared mutable config object. -/
abbrev Ref := Nat

/-- Heap of shared mutable config objects: JavaScript mutates config records
in place, so every operation threads a store. -/
abbrev Store := Ref → Config

/-- Writing a config object in place at address `r`. -/
def Store.write (s : Store) (r : Ref) (c : Config) : Store :=
  fun q => if q = r then c else s q

/-- Geometry object produced by the external bmfont layout engine.  `data` is
the vertex/UV buffer set, abstracted to an arbitrary type; `updateCount`
counts how many times `TextBitmap` code invoked the engine's `update`
regeneration routine on this object. -/
structure Geometry (G : Type) where
  data : G
  updateCount : Nat
deriving DecidableEq, Inhabited

/-- External `geometry.update(config)` entry point: lays the text out again
from the complete config, replacing the vertex/UV data in place. -/
def Geometry.update {G : Type} (layout : Config → G) (g : Geometry G) (config : Config) :
    Geometry G :=
  { data := layout config, updateCount := g.updateCount + 1 }

/-- External `createGeometry(config)` of three-bmfont-text: creates the
geometry object for a config.  Its internals are outside this repository;
`updateCount` starts at zero because it counts only `update` invocations made
by `TextBitmap` code. -/
def createGeometry {G : Type} (layout : Config → G) (config : Config) : Geometry G :=
  { data := layout config, updateCount := 0 }

/-- Texture handle (the atlas image is an external, opaque resource). -/
abbrev Texture := Nat

/-- Uniform values of the shader material: the atlas texture, the text color
(hex value of the `THREE.Color`), and the SDF `smoothing` and `threshold`
scalars. -/
structure Uniforms where
  map : Texture
  color : Nat
  smoothing : ℚ
  threshold : ℚ
deriving DecidableEq, Inhabited

namespace THREE

/-- Value of the `THREE.DoubleSide` rendering constant. -/
def DoubleSide : Nat := 2

end THREE

/-- Shader material constructed by `TextBitmap`: the uniforms plus the shader
program sources and the fixed render flags passed to `THREE.ShaderMaterial`. -/
structure ShaderMaterial where
  uniforms : Uniforms
  fragmentShader : String
  vertexShader : String
  side : Nat
  transparent : Bool
  depthTest : Bool
deriving DecidableEq, Inhabited

/-- State of a `TextBitmap` mesh: the reference to its shared config object,
the render `mode`, the `material`, the `geometry`, and the `name`/`type`
strings set by the constructor. -/
structure TextBitmap (G : Type) where
  configRef : Ref
  mode : Nat
  material : ShaderMaterial
  geometry : Geometry G
  name : String
  type : String
deriving DecidableEq, Inhabited

/-- Render mode constant: simple bitmap font atlas. -/
def TextBitmap.BITMAP : Nat := 100

/-- Render mode constant: single channel signed distance field atlas. -/
def TextBitmap.SDF : Nat := 101

/-- Render mode constant: multi channel signed distance field atlas. -/
def TextBitmap.MSDF : Nat := 102

/-- Alignment constant: align text to the left side. -/
def TextBitmap.LEFT : String := "left"

/-- Alignment constant: align text to the center. -/
def TextBitmap.CENTER : String := "center"

/-- Alignment constant: align text to the right side. -/
def TextBitmap.RIGHT : String := "right"

/-- Source of the vertex shader shared by every render mode. -/
def TextBitmap.VERTEX_SHADER : String :=
  "\n#define BILLBOARD 0 \n\nvarying vec2 vUv;\n\nvoid main()\n\x7b\n\tvUv = uv;\n\t\n\t#if BILLBOARD\n\t\tmat4 model = modelViewMatrix; \n\t\tmodel[0][0] = 1.0;\n\t\tmodel[0][1] = 0.0;\n\t\tmodel[0][2] = 0.0;\n\t\t\n\t\tmodel[1][0] = 0.0;\n\t\tmodel[1][1] = 1.0;\n\t\tmodel[1][2] = 0.0;\n\t\t\n\t\tmodel[2][0] = 0.0;\n\t\tmodel[2][1] = 0.0;\n\t\tmodel[2][2] = 1.0;\n\t\t\n\t\tgl_Position = projectionMatrix * model * vec4(position, 1.0);\n\t#else\n\t\tgl_Position = projectionMatrix * modelViewMatrix * vec4(position, 1.0);\n\t#endif\n\t\n\x7d"

/-- Source of the fragment shader that samples the bitmap atlas directly. -/
def TextBitmap.BITMAP_SHADER : String :=
  "\nvarying vec2 vUv;\nuniform sampler2D map;\n\nvoid main()\n\x7b\n\tgl_FragColor = texture2D(map, vUv);\n\x7d"

/-- Source of the single channel SDF fragment shader: alpha is
smoothstep(threshold - smoothing, threshold + smoothing, distance). -/
def TextBitmap.SDF_SHADER : String :=
  "\nvarying vec2 vUv;\nuniform sampler2D map;\nuniform vec3 color;\nuniform float smoothing;\nuniform float threshold;\n\nvoid main()\n\x7b\n\tfloat distance = texture2D(map, vUv).a;\n\tfloat alpha = smoothstep(threshold - smoothing, threshold + smoothing, distance);\n\tgl_FragColor = vec4(color, alpha);\n\x7d"

/-- Source of the MSDF fragment shader: signed distance is the median of the
three channels minus 0.5, alpha is clamp(sigDist / fwidth(sigDist) + 0.5, 0,
1), and the output coverage is 1.0 - alpha. -/
def TextBitmap.MSDF_SHADER : String :=
  "\n#extension GL_OES_standard_derivatives : enable\n\nvarying vec2 vUv;\nuniform sampler2D map;\nuniform vec3 color;\nuniform float smoothing;\nuniform float threshold;\n\nfloat median(float r, float g, float b)\n\x7b\n\treturn max(min(r, g), min(max(r, g), b));\n\x7d\n\nvoid main()\n\x7b\n\tvec3 sample = texture2D(map, vUv).rgb;\n\tfloat sigDist = median(sample.r, sample.g, sample.b) - 0.5;\n\tfloat alpha = clamp(sigDist / fwidth(sigDist) + 0.5, 0.0, 1.0);\n\tgl_FragColor = vec4(color, 1.0 - alpha);\n\x7d"

/-- Method `TextBitmap.prototype.updateGeometry`: re-runs the layout engine on
the current shared config, replacing the mesh geometry in place. -/
def TextBitmap.updateGeometry {G : Type} (layout : Config → G) (s : Store) (tb : TextBitmap G) :
    TextBitmap G :=
  { tb with geometry := tb.geometry.update layout (s tb.configRef) }

/-- Defaults written field by field into the caller's config object by the
constructor (lines filling `width`, `align`, `lineHeight`, `letterSpacing`,
`text` when they are `undefined`); `font` is the already-checked font. -/
def mergeDefaults (c : Config) (font : Font) : Config :=
  { c with
    width := some (c.width.getD 500)
    align := some (c.align.getD TextBitmap.CENTER)
    lineHeight := some (c.lineHeight.getD font.common.lineHeight)
    letterSpacing := some (c.letterSpacing.getD 5)
    text := some (c.text.getD "") }

/-- Constructor `TextBitmap(config, texture, mode, color)`.  It throws when
`config.font` is `undefined`; otherwise it writes the defaults into the shared
config object, selects the fragment shader from `mode`, builds the uniforms
and material, creates the geometry with `createGeometry(this.config)`, sets
`name`/`type`, and finally calls `this.updateGeometry()`. -/
def TextBitmap.construct {G : Type} (layout : Config → G) (s : Store) (configRef : Ref)
    (texture : Texture) (mode : Option Nat) (color : Option Nat) :
    Except String (Store × TextBitmap G) :=
  match (s configRef).font with
  | none => .error "TextBitmap configuration font is required."
  | some font =>
    let s := Store.write s configRef (mergeDefaults (s configRef) font)
    let mode := mode.getD TextBitmap.BITMAP
    let shader :=
      if mode = TextBitmap.SDF then TextBitmap.SDF_SHADER
      else if mode = TextBitmap.MSDF then TextBitmap.MSDF_SHADER
      else TextBitmap.BITMAP_SHADER
    let uniforms : Uniforms :=
      { map := texture
        color := color.getD 0xFFFFFF
        smoothing := 0
        threshold := 0.4 }
    let material : ShaderMaterial :=
      { uniforms := uniforms
        fragmentShader := shader
        vertexShader := TextBitmap.VERTEX_SHADER
        side := THREE.DoubleSide
        transparent := true
        depthTest := false }
    let geometry := createGeometry layout (s configRef)
    let tb : TextBitmap G :=
      { configRef := configRef
        mode := mode
        material := material
        geometry := geometry
        name := "text"
        type := "TextBitmap" }
    .ok (s, TextBitmap.updateGeometry layout s tb)

/-- Successful constructions, as an `Option` over the resulting store and
instance. -/
def constructed {G : Type} (layout : Config → G) (s : Store) (configRef : Ref)
    (texture : Texture) (mode : Option Nat) (color : Option Nat) :
    Option (Store × TextBitmap G) :=
  (TextBitmap.construct layout s configRef texture mode color).toOption

/-- Property setter for `font`: writes the config field of the shared object,
then calls `updateGeometry`. -/
def TextBitmap.set_font {G : Type} (layout : Config → G) (s : Store) (tb : TextBitmap G)
    (value : Font) : Store × TextBitmap G :=
  let s := Store.write s tb.configRef { s tb.configRef with font := some value }
  (s, TextBitmap.updateGeometry layout s tb)

/-- Property setter for `text`: writes the config field of the shared object,
then calls `updateGeometry`. -/
def TextBitmap.set_text {G : Type} (layout : Config → G) (s : Store) (tb : TextBitmap G)
    (value : String) : Store × TextBitmap G :=
  let s := Store.write s tb.configRef { s tb.configRef with text := some value }
  (s, TextBitmap.updateGeometry layout s tb)

/-- Property setter for `lineHeight`: writes the config field of the shared
object, then calls `updateGeometry`. -/
def TextBitmap.set_lineHeight {G : Type} (layout : Config → G) (s : Store) (tb : TextBitmap G)
    (value : ℚ) : Store × TextBitmap G :=
  let s := Store.write s tb.configRef { s tb.configRef with lineHeight := some value }
  (s, TextBitmap.updateGeometry layout s tb)

/-- Property setter for `letterSpacing`: writes the config field of the shared
object, then calls `updateGeometry`. -/
def TextBitmap.set_letterSpacing {G : Type} (layout : Config → G) (s : Store) (tb : TextBitmap G)
    (value : ℚ) : Store × TextBitmap G :=
  let s := Store.write s tb.configRef { s tb.configRef with letterSpacing := some value }
  (s, TextBitmap.updateGeometry layout s tb)

/-- Property setter for `align`: writes the config field of the shared object,
then calls `updateGeometry`. -/
def TextBitmap.set_align {G : Type} (layout : Config → G) (s : Store) (tb : TextBitmap G)
    (value : String) : Store × TextBitmap G :=
  let s := Store.write s tb.configRef { s tb.configRef with align := some value }
  (s, TextBitmap.updateGeometry layout s tb)

/-- Property setter for `width`: writes the config field of the shared object,
then calls `updateGeometry`. -/
def TextBitmap.set_width {G : Type} (layout : Config → G) (s : Store) (tb : TextBitmap G)
    (value : ℚ) : Store × TextBitmap G :=
  let s := Store.write s tb.configRef { s tb.configRef with width := some value }
  (s, TextBitmap.updateGeometry layout s tb)

/-- Property setter for `color`: replaces the material uniform value only. -/
def TextBitmap.set_color {G : Type} (s : Store) (tb : TextBitmap G) (value : Nat) :
    Store × TextBitmap G :=
  (s, { tb with material :=
    { tb.material with uniforms := { tb.material.uniforms with color := value } } })

/-- Property setter for `threshold`: replaces the material uniform value
only. -/
def TextBitmap.set_threshold {G : Type} (s : Store) (tb : TextBitmap G) (value : ℚ) :
    Store × TextBitmap G :=
  (s, { tb with material :=
    { tb.material with uniforms := { tb.material.uniforms with threshold := value } } })

/-- Property setter for `smoothing`: replaces the material uniform value
only. -/
def TextBitmap.set_smoothing {G : Type} (s : Store) (tb : TextBitmap G) (value : ℚ) :
    Store × TextBitmap G :=
  (s, { tb with material :=
    { tb.material with uniforms := { tb.material.uniforms with smoothing := value } } })

/-- Property getter for `text` (reads the shared config object). -/
def TextBitmap.get_text {G : Type} (s : Store) (tb : TextBitmap G) : Option String :=
  (s tb.configRef).text

/-- Method `TextBitmap.prototype.setText`: its body is `this.text = text`,
which invokes the `text` property setter. -/
def TextBitmap.setText {G : Type} (layout : Config → G) (s : Store) (tb : TextBitmap G)
    (text : String) : Store × TextBitmap G :=
  TextBitmap.set_text layout s tb text

/-- Closed enumeration of the operations the public surface offers on a live
instance: the nine property writes, the `setText` method and the
`updateGeometry` method. -/
inductive Op where
  | write_font (value : Font)
  | write_text (value : String)
  | write_lineHeight (value : ℚ)
  | write_letterSpacing (value : ℚ)
  | write_align (value : String)
  | write_width (value : ℚ)
  | write_color (value : Nat)
  | write_threshold (value : ℚ)
  | write_smoothing (value : ℚ)
  | callSetText (value : String)
  | callUpdateGeometry
deriving DecidableEq

/-- Effect of one public operation on the store and the instance. -/
def applyOp {G : Type} (layout : Config → G) (op : Op) (p : Store × TextBitmap G) :
    Store × TextBitmap G :=
  match op with
  | .write_font v => TextBitmap.set_font layout p.1 p.2 v
  | .write_text v => TextBitmap.set_text layout p.1 p.2 v
  | .write_lineHeight v => TextBitmap.set_lineHeight layout p.1 p.2 v
  | .write_letterSpacing v => TextBitmap.set_letterSpacing layout p.1 p.2 v
  | .write_align v => TextBitmap.set_align layout p.1 p.2 v
  | .write_width v => TextBitmap.set_width layout p.1 p.2 v
  | .write_color v => TextBitmap.set_color p.1 p.2 v
  | .write_threshold v => TextBitmap.set_threshold p.1 p.2 v
  | .write_smoothing v => TextBitmap.set_smoothing p.1 p.2 v
  | .callSetText v => TextBitmap.setText layout p.1 p.2 v
  | .callUpdateGeometry => (p.1, TextBitmap.updateGeometry layout p.1 p.2)

/-- One write to a layout-affecting property (`font`, `text`, `lineHeight`,
`letterSpacing`, `align`, `width`). -/
inductive LayoutWrite where
  | font (value : Font)
  | text (value : String)
  | lineHeight (value : ℚ)
  | letterSpacing (value : ℚ)
  | align (value : String)
  | width (value : ℚ)
deriving DecidableEq

/-- Effect of one layout-affecting property write. -/
def applyWrite {G : Type} (layout : Config → G) (p : Store × TextBitmap G) :
    LayoutWrite → Store × TextBitmap G
  | .font v => TextBitmap.set_font layout p.1 p.2 v
  | .text v => TextBitmap.set_text layout p.1 p.2 v
  | .lineHeight v => TextBitmap.set_lineHeight layout p.1 p.2 v
  | .letterSpacing v => TextBitmap.set_letterSpacing layout p.1 p.2 v
  | .align v => TextBitmap.set_align layout p.1 p.2 v
  | .width v => TextBitmap.set_width layout p.1 p.2 v

/-- Effect of a finite sequence of layout-affecting property writes. -/
def applyWrites {G : Type} (layout : Config → G) (ws : List LayoutWrite)
    (p : Store × TextBitmap G) : Store × TextBitmap G :=
  ws.foldl (applyWrite layout) p

/-- Pure effect of one layout write on a config record alone. -/
def writeField (c : Config) : LayoutWrite → Config
  | .font v => { c with font := some v }
  | .text v => { c with text := some v }
  | .lineHeight v => { c with lineHeight := some v }
  | .letterSpacing v => { c with letterSpacing := some v }
  | .align v => { c with align := some v }
  | .width v => { c with width := some v }

/-- A config whose six class-managed fields are all present, as they are after
construction. -/
def Config.filled (c : Config) : Prop :=
  c.font.isSome = true ∧ c.text.isSome = true ∧ c.width.isSome = true ∧
  c.align.isSome = true ∧ c.lineHeight.isSome = true ∧ c.letterSpacing.isSome = true

/-- Concrete font used to evaluate the development on closed inputs. -/
def wFont : Font :=
  { common := { lineHeight := 32 }, glyphs := 7 }

/-- Concrete caller config holding only a font, every optional field omitted. -/
def wCfgEmpty : Config :=
  { font := some wFont, text := none, width := none, align := none, lineHeight := none,
    letterSpacing := none, mode := none, tabSize := none, start := none, «end» := none }

/-- Concrete caller config with no font at all. -/
def wCfgNoFont : Config :=
  { wCfgEmpty with font := none }

/-- Concrete store whose every address holds `wCfgEmpty`. -/
def wS1 : Store := fun _ => wCfgEmpty

/-- Concrete store whose every address holds `wCfgNoFont`. -/
def wS0 : Store := fun _ => wCfgNoFont

/-- Concrete result of a successful construction over `wS1`, with the identity
layout function. -/
def wRes : Store × TextBitmap Config :=
  (TextBitmap.construct (id : Config → Config) wS1 0 7 none none).toOption.get!

theorem Store.write_same (s : Store) (r : Ref) (c : Config) :
    Store.write s r c r = c := by
  simp [Store.write]

theorem Store.write_other (s : Store) (r q : Ref) (c : Config) (h : q ≠ r) :
    Store.write s r c q = s q := by
  simp [Store.write, h]

theorem some_getD {α : Type} (o : Option α) (d : α) (h : o.isSome = true) :
    some (o.getD d) = o := by
  cases o with
  | none => simp at h
  | some a => rfl

/-- Shape of every successful construction: the defaults are written into the
caller's config object and the instance is built from the written store. -/
theorem construct_ok {G : Type} (layout : Config → G) {s : Store} {configRef : Ref} {F : Font}
    (t : Texture) (m c : Option Nat) (hf : (s configRef).font = some F) :
    TextBitmap.construct layout s configRef t m c = Except.ok
      (Store.write s configRef (mergeDefaults (s configRef) F),
       { configRef := configRef
         mode := m.getD TextBitmap.BITMAP
         material :=
           { uniforms := { map := t, color := c.getD 0xFFFFFF, smoothing := 0, threshold := 0.4 }
             fragmentShader :=
               if m.getD TextBitmap.BITMAP = TextBitmap.SDF then TextBitmap.SDF_SHADER
               else if m.getD TextBitmap.BITMAP = TextBitmap.MSDF then TextBitmap.MSDF_SHADER
               else TextBitmap.BITMAP_SHADER
             vertexShader := TextBitmap.VERTEX_SHADER
             side := THREE.DoubleSide
             transparent := true
             depthTest := false }
         geometry := { data := layout (mergeDefaults (s configRef) F), updateCount := 1 }
         name := "text"
         type := "TextBitmap" }) := by
  simp [TextBitmap.construct, hf, TextBitmap.updateGeometry, Geometry.update, createGeometry,
    Store.write_same]

theorem applyWrite_configRef {G : Type} (layout : Config → G) (p : Store × TextBitmap G)
    (w : LayoutWrite) : (applyWrite layout p w).2.configRef = p.2.configRef := by
  cases w <;>
    simp [applyWrite, TextBitmap.set_font, TextBitmap.set_text, TextBitmap.set_lineHeight,
      TextBitmap.set_letterSpacing, TextBitmap.set_align, TextBitmap.set_width,
      TextBitmap.updateGeometry]

theorem applyWrite_config {G : Type} (layout : Config → G) (p : Store × TextBitmap G)
    (w : LayoutWrite) :
    (applyWrite layout p w).1 p.2.configRef = writeField (p.1 p.2.configRef) w := by
  cases w <;>
    simp [applyWrite, TextBitmap.set_font, TextBitmap.set_text, TextBitmap.set_lineHeight,
      TextBitmap.set_letterSpacing, TextBitmap.set_align, TextBitmap.set_width,
      TextBitmap.updateGeometry, writeField, Store.write_same]

theorem applyWrite_data {G : Type} (layout : Config → G) (p : Store × TextBitmap G)
    (w : LayoutWrite) :
    (applyWrite layout p w).2.geometry.data = layout ((applyWrite layout p w).1 p.2.configRef) := by
  cases w <;>
    simp [applyWrite, TextBitmap.set_font, TextBitmap.set_text, TextBitmap.set_lineHeight,
      TextBitmap.set_letterSpacing, TextBitmap.set_align, TextBitmap.set_width,
      TextBitmap.updateGeometry, Geometry.update]

theorem applyWrites_cons {G : Type} (layout : Config → G) (w : LayoutWrite)
    (ws : List LayoutWrite) (p : Store × TextBitmap G) :
    applyWrites layout (w :: ws) p = applyWrites layout ws (applyWrite layout p w) := by
  simp [applyWrites]

theorem applyWrites_configRef {G : Type} (layout : Config → G) (ws : List LayoutWrite) :
    ∀ p : Store × TextBitmap G, (applyWrites layout ws p).2.configRef = p.2.configRef := by
  induction ws with
  | nil => intro p; simp [applyWrites]
  | cons w ws ih =>
    intro p
    rw [applyWrites_cons, ih, applyWrite_configRef]

theorem applyWrites_config {G : Type} (layout : Config → G) (ws : List LayoutWrite) :
    ∀ p : Store × TextBitmap G,
      (applyWrites layout ws p).1 p.2.configRef = ws.foldl writeField (p.1 p.2.configRef) := by
  induction ws with
  | nil => intro p; simp [applyWrites]
  | cons w ws ih =>
    intro p
    rw [applyWrites_cons, List.foldl_cons, ← applyWrite_config layout p w,
      ← applyWrite_configRef layout p w]
    exact ih (applyWrite layout p w)

theorem applyWrites_data {G : Type} (layout : Config → G) (ws : List LayoutWrite) :
    ∀ p : Store × TextBitmap G, p.2.geometry.data = layout (p.1 p.2.configRef) →
      (applyWrites layout ws p).2.geometry.data =
        layout ((applyWrites layout ws p).1 (applyWrites layout ws p).2.configRef) := by
  induction ws with
  | nil =>
    intro p h
    simpa [applyWrites] using h
  | cons w ws ih =>
    intro p _
    rw [applyWrites_cons]
    have h2 : (applyWrite layout p w).2.geometry.data =
        layout ((applyWrite layout p w).1 (applyWrite layout p w).2.configRef) := by
      rw [applyWrite_configRef]
      exact applyWrite_data layout p w
    exact ih (applyWrite layout p w) h2

theorem filled_writeField (c : Config) (w : LayoutWrite) (h : c.filled) :
    (writeField c w).filled := by
  obtain ⟨h1, h2, h3, h4, h5, h6⟩ := h
  cases w <;> exact ⟨by simp_all [writeField], by simp_all [writeField], by simp_all [writeField],
    by simp_all [writeField], by simp_all [writeField], by simp_all [writeField]⟩

theorem filled_foldl (ws : List LayoutWrite) :
    ∀ c : Config, c.filled → (ws.foldl writeField c).filled := by
  induction ws with
  | nil => intro c h; simpa using h
  | cons w ws ih =>
    intro c h
    rw [List.foldl_cons]
    exact ih (writeField c w) (filled_writeField c w h)

theorem mergeDefaults_filled (c : Config) (F : Font) (hf : c.font = some F) :
    (mergeDefaults c F).filled := by
  refine ⟨?_, ?_, ?_, ?_, ?_, ?_⟩ <;> simp [mergeDefaults, hf]

theorem filled_mergeDefaults_eq (c : Config) (F : Font) (h : c.filled) :
    mergeDefaults c F = c := by
  cases c with
  | mk f tx w al lh ls md tb st en =>
    obtain ⟨h1, h2, h3, h4, h5, h6⟩ := h
    obtain ⟨tx2, rfl⟩ := Option.isSome_iff_exists.mp h2
    obtain ⟨w2, rfl⟩ := Option.isSome_iff_exists.mp h3
    obtain ⟨al2, rfl⟩ := Option.isSome_iff_exists.mp h4
    obtain ⟨lh2, rfl⟩ := Option.isSome_iff_exists.mp h5
    obtain ⟨ls2, rfl⟩ := Option.isSome_iff_exists.mp h6
    simp [mergeDefaults]

/-- C1: writing any of the properties `font`, `text`, `lineHeight`,
`letterSpacing`, `align`, `width` stores the written value in the instance's
shared config record (changing no other field) and triggers exactly one full
geometry regeneration — the engine's `update` invocation count rises by
exactly one and the new vertex/UV data is the layout of the complete updated
config — so no layout-affecting mutator bypasses `updateGeometry`. -/
theorem C1_layout_property_writes {G : Type} (layout : Config → G) (s : Store)
    (tb : TextBitmap G) :
    (∀ v, (TextBitmap.set_font layout s tb v).1 tb.configRef =
        { s tb.configRef with font := some v }
      ∧ (TextBitmap.set_font layout s tb v).2.geometry.data =
        layout ((TextBitmap.set_font layout s tb v).1 tb.configRef)
      ∧ (TextBitmap.set_font layout s tb v).2.geometry.updateCount =
        tb.geometry.updateCount + 1)
    ∧ (∀ v, (TextBitmap.set_text layout s tb v).1 tb.configRef =
        { s tb.configRef with text := some v }
      ∧ (TextBitmap.set_text layout s tb v).2.geometry.data =
        layout ((TextBitmap.set_text layout s tb v).1 tb.configRef)
      ∧ (TextBitmap.set_text layout s tb v).2.geometry.updateCount =
        tb.geometry.updateCount + 1)
    ∧ (∀ v, (TextBitmap.set_lineHeight layout s tb v).1 tb.configRef =
        { s tb.configRef with lineHeight := some v }
      ∧ (TextBitmap.set_lineHeight layout s tb v).2.geometry.data =
        layout ((TextBitmap.set_lineHeight layout s tb v).1 tb.configRef)
      ∧ (TextBitmap.set_lineHeight layout s tb v).2.geometry.updateCount =
        tb.geometry.updateCount + 1)
    ∧ (∀ v, (TextBitmap.set_letterSpacing layout s tb v).1 tb.configRef =
        { s tb.configRef with letterSpacing := some v }
      ∧ (TextBitmap.set_letterSpacing layout s tb v).2.geometry.data =
        layout ((TextBitmap.set_letterSpacing layout s tb v).1 tb.configRef)
      ∧ (TextBitmap.set_letterSpacing layout s tb v).2.geometry.updateCount =
        tb.geometry.updateCount + 1)
    ∧ (∀ v, (TextBitmap.set_align layout s tb v).1 tb.configRef =
        { s tb.configRef with align := some v }
      ∧ (TextBitmap.set_align layout s tb v).2.geometry.data =
        layout ((TextBitmap.set_align layout s tb v).1 tb.configRef)
      ∧ (TextBitmap.set_align layout s tb v).2.geometry.updateCount =
        tb.geometry.updateCount + 1)
    ∧ (∀ v, (TextBitmap.set_width layout s tb v).1 tb.configRef =
        { s tb.configRef with width := some v }
      ∧ (TextBitmap.set_width layout s tb v).2.geometry.data =
        layout ((TextBitmap.set_width layout s tb v).1 tb.configRef)
      ∧ (TextBitmap.set_width layout s tb v).2.geometry.updateCount =
        tb.geometry.updateCount + 1) := by
  refine ⟨fun v => ?_, fun v => ?_, fun v => ?_, fun v => ?_, fun v => ?_, fun v => ?_⟩ <;>
    refine ⟨?_, ?_, ?_⟩ <;>
    simp [TextBitmap.set_font, TextBitmap.set_text, TextBitmap.set_lineHeight,
      TextBitmap.set_letterSpacing, TextBitmap.set_align, TextBitmap.set_width,
      TextBitmap.updateGeometry, Geometry.update, Store.write_same]

/-- C2: writing `color`, `threshold` or `smoothing` updates only the
corresponding material uniform value; the store of config objects, the
geometry (vertex/UV data and regeneration count), the other uniforms and the
bound shader are all unchanged. -/
theorem C2_uniform_property_writes {G : Type} (s : Store) (tb : TextBitmap G) :
    (∀ v, (TextBitmap.set_color s tb v).1 = s
      ∧ (TextBitmap.set_color s tb v).2.geometry = tb.geometry
      ∧ (TextBitmap.set_color s tb v).2.material.uniforms.color = v
      ∧ (TextBitmap.set_color s tb v).2.material.uniforms.threshold =
        tb.material.uniforms.threshold
      ∧ (TextBitmap.set_color s tb v).2.material.uniforms.smoothing =
        tb.material.uniforms.smoothing
      ∧ (TextBitmap.set_color s tb v).2.material.uniforms.map = tb.material.uniforms.map
      ∧ (TextBitmap.set_color s tb v).2.material.fragmentShader = tb.material.fragmentShader)
    ∧ (∀ v, (TextBitmap.set_threshold s tb v).1 = s
      ∧ (TextBitmap.set_threshold s tb v).2.geometry = tb.geometry
      ∧ (TextBitmap.set_threshold s tb v).2.material.uniforms.threshold = v
      ∧ (TextBitmap.set_threshold s tb v).2.material.uniforms.color =
        tb.material.uniforms.color
      ∧ (TextBitmap.set_threshold s tb v).2.material.uniforms.smoothing =
        tb.material.uniforms.smoothing
      ∧ (TextBitmap.set_threshold s tb v).2.material.uniforms.map = tb.material.uniforms.map
      ∧ (TextBitmap.set_threshold s tb v).2.material.fragmentShader =
        tb.material.fragmentShader)
    ∧ (∀ v, (TextBitmap.set_smoothing s tb v).1 = s
      ∧ (TextBitmap.set_smoothing s tb v).2.geometry = tb.geometry
      ∧ (TextBitmap.set_smoothing s tb v).2.material.uniforms.smoothing = v
      ∧ (TextBitmap.set_smoothing s tb v).2.material.uniforms.color =
        tb.material.uniforms.color
      ∧ (TextBitmap.set_smoothing s tb v).2.material.uniforms.threshold =
        tb.material.uniforms.threshold
      ∧ (TextBitmap.set_smoothing s tb v).2.material.uniforms.map = tb.material.uniforms.map
      ∧ (TextBitmap.set_smoothing s tb v).2.material.fragmentShader =
        tb.material.fragmentShader) :=
  ⟨fun _ => ⟨rfl, rfl, rfl, rfl, rfl, rfl, rfl⟩,
   fun _ => ⟨rfl, rfl, rfl, rfl, rfl, rfl, rfl⟩,
   fun _ => ⟨rfl, rfl, rfl, rfl, rfl, rfl, rfl⟩⟩

/-- C7: `updateGeometry` is idempotent on the vertex/UV data — a second call
with no config mutation in between produces the same laid-out data as the
first call. -/
theorem C7_updateGeometry_idempotent {G : Type} (layout : Config → G) (s : Store)
    (tb : TextBitmap G) :
    (TextBitmap.updateGeometry layout s (TextBitmap.updateGeometry layout s tb)).geometry.data =
      (TextBitmap.updateGeometry layout s tb).geometry.data := rfl

/-- C8: for every instance and string, the `setText` method is observably
identical to assigning the `text` property: the two leave the same resulting
geometry, the same value behind the `text` getter, and in fact the same whole
store/instance state. -/
theorem C8_setText_equals_text_write {G : Type} (layout : Config → G) (s : Store)
    (tb : TextBitmap G) (v : String) :
    (TextBitmap.setText layout s tb v).2.geometry =
      (TextBitmap.set_text layout s tb v).2.geometry
    ∧ TextBitmap.get_text (TextBitmap.setText layout s tb v).1
        (TextBitmap.setText layout s tb v).2 =
      TextBitmap.get_text (TextBitmap.set_text layout s tb v).1
        (TextBitmap.set_text layout s tb v).2
    ∧ TextBitmap.setText layout s tb v = TextBitmap.set_text layout s tb v :=
  ⟨rfl, rfl, rfl⟩

/-- C3: construction succeeds exactly when the config has a `font` field; when
it is absent the constructor fails with the configuration error (producing no
store and no instance), and when it is present construction never raises, no
matter which other config fields are omitted. -/
theorem C3_font_required {G : Type} (layout : Config → G) (s : Store) (ref : Ref)
    (t : Texture) (m c : Option Nat) :
    (constructed layout s ref t m c).isSome = (s ref).font.isSome
    ∧ ((s ref).font = none →
        TextBitmap.construct layout s ref t m c =
          Except.error "TextBitmap configuration font is required.") := by
  constructor
  · cases h : (s ref).font with
    | none => simp [constructed, Except.toOption, TextBitmap.construct, h]
    | some F => simp [constructed, Except.toOption, construct_ok layout t m c h]
  · intro h
    simp [TextBitmap.construct, h]

/-- C3 witness: over the concrete stores, construction without a font fails
with the configuration error and construction with a font succeeds. -/
theorem C3_font_required_witness :
    ((wS0 0).font = none
      ∧ TextBitmap.construct (id : Config → Config) wS0 0 7 none none =
          Except.error "TextBitmap configuration font is required.")
    ∧ (constructed (id : Config → Config) wS1 0 7 none none).isSome = true :=
  ⟨⟨rfl, (C3_font_required (id : Config → Config) wS0 0 7 none none).2 rfl⟩,
   ((C3_font_required (id : Config → Config) wS1 0 7 none none).1).trans rfl⟩

/-- C4: constructing with a config whose `font` is present (and `mode`/`color`
omitted) keeps every supplied config field and defaults every omitted one:
width 500, align center, lineHeight the font's base line height, letterSpacing
5, text the empty string; the instance's mode is `BITMAP` and the uniforms
default to opaque white, threshold 0.4 and smoothing 0. -/
theorem C4_construction_defaults {G : Type} (layout : Config → G) (s : Store) (ref : Ref)
    (t : Texture) (cfg : Config) (F : Font) (h : s ref = cfg) (hf : cfg.font = some F) :
    (constructed layout s ref t none none).map (fun p => (p.1 ref).font) = some (some F)
    ∧ (constructed layout s ref t none none).map (fun p => (p.1 ref).width) =
        some (some (cfg.width.getD 500))
    ∧ (constructed layout s ref t none none).map (fun p => (p.1 ref).align) =
        some (some (cfg.align.getD TextBitmap.CENTER))
    ∧ (constructed layout s ref t none none).map (fun p => (p.1 ref).lineHeight) =
        some (some (cfg.lineHeight.getD F.common.lineHeight))
    ∧ (constructed layout s ref t none none).map (fun p => (p.1 ref).letterSpacing) =
        some (some (cfg.letterSpacing.getD 5))
    ∧ (constructed layout s ref t none none).map (fun p => (p.1 ref).text) =
        some (some (cfg.text.getD ""))
    ∧ (constructed layout s ref t none none).map (fun p => p.2.mode) =
        some TextBitmap.BITMAP
    ∧ (constructed layout s ref t none none).map (fun p => p.2.material.uniforms) =
        some { map := t, color := 0xFFFFFF, smoothing := 0, threshold := 0.4 } := by
  subst h
  refine ⟨?_, ?_, ?_, ?_, ?_, ?_, ?_, ?_⟩ <;>
    simp [constructed, Except.toOption, construct_ok layout t none none hf, mergeDefaults, hf,
      Store.write_same]

/-- C4 witness: constructing over the concrete store whose config holds only a
font yields width 500, align center, lineHeight 32 (the font's base line
height), letterSpacing 5, empty text, mode `BITMAP` and the default
uniforms. -/
theorem C4_construction_defaults_witness :
    wS1 0 = wCfgEmpty ∧ wCfgEmpty.font = some wFont
    ∧ (constructed (id : Config → Config) wS1 0 7 none none).map (fun p => (p.1 0).width) =
        some (some 500)
    ∧ (constructed (id : Config → Config) wS1 0 7 none none).map (fun p => (p.1 0).align) =
        some (some "center")
    ∧ (constructed (id : Config → Config) wS1 0 7 none none).map
        (fun p => (p.1 0).lineHeight) = some (some 32)
    ∧ (constructed (id : Config → Config) wS1 0 7 none none).map
        (fun p => (p.1 0).letterSpacing) = some (some 5)
    ∧ (constructed (id : Config → Config) wS1 0 7 none none).map (fun p => (p.1 0).text) =
        some (some "")
    ∧ (constructed (id : Config → Config) wS1 0 7 none none).map (fun p => p.2.mode) =
        some TextBitmap.BITMAP
    ∧ (constructed (id : Config → Config) wS1 0 7 none none).map
        (fun p => p.2.material.uniforms) =
        some { map := 7, color := 0xFFFFFF, smoothing := 0, threshold := 0.4 } := by
  have h := C4_construction_defaults (id : Config → Config) wS1 0 7 wCfgEmpty wFont rfl rfl
  refine ⟨rfl, rfl, ?_, ?_, ?_, ?_, ?_, h.2.2.2.2.2.2.1, h.2.2.2.2.2.2.2⟩
  · simpa using h.2.1
  · simpa [TextBitmap.CENTER] using h.2.2.1
  · simpa [wFont] using h.2.2.2.1
  · simpa using h.2.2.2.2.1
  · simpa using h.2.2.2.2.2.1

/-- C5: the fragment shader is chosen once at construction from `mode` — SDF
selects the SDF shader, MSDF the MSDF shader, every other value the bitmap
shader (the three sources being pairwise distinct programs) — and no public
operation on a live instance ever changes the bound fragment shader. -/
theorem C5_shader_fixed_by_mode {G : Type} (layout : Config → G) (s : Store) (ref : Ref)
    (t : Texture) (m c : Option Nat) (F : Font) (hf : (s ref).font = some F) :
    (constructed layout s ref t m c).map (fun p => p.2.material.fragmentShader) =
      some (if m.getD TextBitmap.BITMAP = TextBitmap.SDF then TextBitmap.SDF_SHADER
        else if m.getD TextBitmap.BITMAP = TextBitmap.MSDF then TextBitmap.MSDF_SHADER
        else TextBitmap.BITMAP_SHADER)
    ∧ (∀ (op : Op) (q : Store × TextBitmap G),
        (applyOp layout op q).2.material.fragmentShader = q.2.material.fragmentShader)
    ∧ TextBitmap.SDF_SHADER ≠ TextBitmap.BITMAP_SHADER
    ∧ TextBitmap.MSDF_SHADER ≠ TextBitmap.BITMAP_SHADER
    ∧ TextBitmap.SDF_SHADER ≠ TextBitmap.MSDF_SHADER := by
  refine ⟨?_, ?_, ?_, ?_, ?_⟩
  · simp [constructed, Except.toOption, construct_ok layout t m c hf]
  · intro op q
    cases op <;>
      simp [applyOp, TextBitmap.set_font, TextBitmap.set_text, TextBitmap.set_lineHeight,
        TextBitmap.set_letterSpacing, TextBitmap.set_align, TextBitmap.set_width,
        TextBitmap.set_color, TextBitmap.set_threshold, TextBitmap.set_smoothing,
        TextBitmap.setText, TextBitmap.updateGeometry]
  · simp [TextBitmap.SDF_SHADER, TextBitmap.BITMAP_SHADER]
  · simp [TextBitmap.MSDF_SHADER, TextBitmap.BITMAP_SHADER]
  · simp [TextBitmap.SDF_SHADER, TextBitmap.MSDF_SHADER]

/-- C5 witness: over the concrete store, mode 101 binds the SDF shader, mode
102 the MSDF shader, an omitted mode the bitmap shader. -/
theorem C5_shader_fixed_by_mode_witness :
    (wS1 0).font = some wFont
    ∧ (constructed (id : Config → Config) wS1 0 7 (some 101) none).map
        (fun p => p.2.material.fragmentShader) = some TextBitmap.SDF_SHADER
    ∧ (constructed (id : Config → Config) wS1 0 7 (some 102) none).map
        (fun p => p.2.material.fragmentShader) = some TextBitmap.MSDF_SHADER
    ∧ (constructed (id : Config → Config) wS1 0 7 none none).map
        (fun p => p.2.material.fragmentShader) = some TextBitmap.BITMAP_SHADER := by
  refine ⟨rfl, ?_, ?_, ?_⟩
  · simpa [TextBitmap.SDF, TextBitmap.MSDF, TextBitmap.BITMAP] using
      (C5_shader_fixed_by_mode (id : Config → Config) wS1 0 7 (some 101) none wFont rfl).1
  · simpa [TextBitmap.SDF, TextBitmap.MSDF, TextBitmap.BITMAP] using
      (C5_shader_fixed_by_mode (id : Config → Config) wS1 0 7 (some 102) none wFont rfl).1
  · simpa [TextBitmap.SDF, TextBitmap.MSDF, TextBitmap.BITMAP] using
      (C5_shader_fixed_by_mode (id : Config → Config) wS1 0 7 none none wFont rfl).1

/-- C9: during construction the geometry is generated from the (defaulted)
config immediately, and the engine's regeneration routine is invoked exactly
once by the constructor: the resulting update count is 1 and the vertex/UV
data is the layout of the merged config, which is the config the instance
references. -/
theorem C9_geometry_once_at_construction {G : Type} (layout : Config → G) (s : Store)
    (ref : Ref) (t : Texture) (m c : Option Nat) (F : Font) (hf : (s ref).font = some F) :
    (constructed layout s ref t m c).map (fun p => p.2.geometry.updateCount) = some 1
    ∧ (constructed layout s ref t m c).map (fun p => p.2.geometry.data) =
        some (layout (mergeDefaults (s ref) F))
    ∧ ∀ p, constructed layout s ref t m c = some p →
        p.2.geometry.data = layout (p.1 p.2.configRef) := by
  refine ⟨?_, ?_, ?_⟩
  · simp [constructed, Except.toOption, construct_ok layout t m c hf]
  · simp [constructed, Except.toOption, construct_ok layout t m c hf]
  · intro p hp
    simp [constructed, Except.toOption, construct_ok layout t m c hf] at hp
    subst hp
    simp [Store.write_same]

/-- C9 witness: constructing over the concrete store runs the regeneration
routine once and lays out the merged config. -/
theorem C9_geometry_once_at_construction_witness :
    (wS1 0).font = some wFont
    ∧ (constructed (id : Config → Config) wS1 0 7 none none).map
        (fun p => p.2.geometry.updateCount) = some 1
    ∧ (constructed (id : Config → Config) wS1 0 7 none none).map
        (fun p => p.2.geometry.data) = some (mergeDefaults wCfgEmpty wFont) := by
  have h := C9_geometry_once_at_construction (id : Config → Config) wS1 0 7 none none wFont rfl
  exact ⟨rfl, h.1, h.2.1⟩

/-- C10: the constructor stores the caller's config object by reference
(`configRef` is the caller's address) and writes the defaults into that same
object, so after construction the caller's object holds the merged defaults;
every later property write mutates the shared object at the caller's address,
and an external overwrite of that object is what the next `updateGeometry`
lays out. -/
theorem C10_config_shared_by_reference {G : Type} (layout : Config → G) (s : Store)
    (ref : Ref) (t : Texture) (m c : Option Nat) (cfg : Config) (F : Font)
    (h : s ref = cfg) (hf : cfg.font = some F) :
    (constructed layout s ref t m c).map (fun p => p.2.configRef) = some ref
    ∧ (constructed layout s ref t m c).map (fun p => p.1 ref) = some (mergeDefaults cfg F)
    ∧ (∀ p, constructed layout s ref t m c = some p → ∀ v,
        (TextBitmap.set_text layout p.1 p.2 v).1 ref = { p.1 ref with text := some v })
    ∧ (∀ p, constructed layout s ref t m c = some p → ∀ cfg2,
        (TextBitmap.updateGeometry layout (Store.write p.1 ref cfg2) p.2).geometry.data =
          layout cfg2) := by
  subst h
  refine ⟨?_, ?_, ?_, ?_⟩
  · simp [constructed, Except.toOption, construct_ok layout t m c hf]
  · simp [constructed, Except.toOption, construct_ok layout t m c hf, Store.write_same]
  · intro p hp v
    simp [constructed, Except.toOption, construct_ok layout t m c hf] at hp
    subst hp
    simp [TextBitmap.set_text, Store.write_same]
  · intro p hp cfg2
    simp [constructed, Except.toOption, construct_ok layout t m c hf] at hp
    subst hp
    simp [TextBitmap.updateGeometry, Geometry.update, Store.write_same]

/-- C10 witness: over the concrete store, the constructed instance references
address 0, the caller's object at address 0 holds the merged defaults, a
`text` write is visible at address 0, and an external overwrite of address 0
is what the next regeneration lays out. -/
theorem C10_config_shared_by_reference_witness :
    (wS1 0 = wCfgEmpty ∧ wCfgEmpty.font = some wFont)
    ∧ (constructed (id : Config → Config) wS1 0 7 none none).map (fun p => p.2.configRef) =
        some 0
    ∧ (constructed (id : Config → Config) wS1 0 7 none none).map (fun p => p.1 0) =
        some (mergeDefaults wCfgEmpty wFont)
    ∧ (TextBitmap.set_text (id : Config → Config) wRes.1 wRes.2 "Hi").1 0 =
        { wRes.1 0 with text := some "Hi" }
    ∧ (TextBitmap.updateGeometry (id : Config → Config)
        (Store.write wRes.1 0 wCfgEmpty) wRes.2).geometry.data = wCfgEmpty := by
  have h := C10_config_shared_by_reference (id : Config → Config) wS1 0 7 none none
    wCfgEmpty wFont rfl rfl
  refine ⟨⟨rfl, rfl⟩, h.1, h.2.1, ?_, ?_⟩
  · exact h.2.2.1 (wRes.1, wRes.2) rfl "Hi"
  · exact h.2.2.2 (wRes.1, wRes.2) rfl wCfgEmpty

/-- Core of the path-independence argument: from any state whose referenced
config is filled and whose geometry is the layout of that config, a write
sequence leaves the caller's config equal to the folded field writes, and a
fresh construction from the resulting store reproduces the geometry data. -/
theorem writes_then_fresh {G : Type} (layout : Config → G) (ws : List LayoutWrite)
    (p : Store × TextBitmap G) (t : Texture) (m c : Option Nat)
    (hfill : (p.1 p.2.configRef).filled)
    (hdata : p.2.geometry.data = layout (p.1 p.2.configRef)) :
    (applyWrites layout ws p).1 p.2.configRef = ws.foldl writeField (p.1 p.2.configRef)
    ∧ (constructed layout (applyWrites layout ws p).1 p.2.configRef t m c).map
        (fun q => q.2.geometry.data) = some (applyWrites layout ws p).2.geometry.data := by
  have h1 := applyWrites_config layout ws p
  have hcr := applyWrites_configRef layout ws p
  refine ⟨h1, ?_⟩
  have hfill2 : ((applyWrites layout ws p).1 p.2.configRef).filled := by
    rw [h1]
    exact filled_foldl ws _ hfill
  obtain ⟨hfnt, hrest⟩ := hfill2
  obtain ⟨F2, hF2⟩ := Option.isSome_iff_exists.mp hfnt
  have hdata2 := applyWrites_data layout ws p hdata
  rw [hcr] at hdata2
  simp [constructed, Except.toOption, construct_ok layout t m c hF2,
    filled_mergeDefaults_eq _ F2 ⟨hfnt, hrest⟩, hdata2]

/-- C6: path-independence of layout writes — after any finite sequence of
writes to the layout-affecting properties, the caller's config object holds
the original merged config overwritten with the final written values, and the
geometry's vertex/UV data equals that of a fresh construction from that final
merged config; only the final config matters, not the order or number of
intermediate writes. -/
theorem C6_path_independence {G : Type} (layout : Config → G) (s : Store) (ref : Ref)
    (t : Texture) (m c : Option Nat) (F : Font) (ws : List LayoutWrite)
    (s1 : Store) (tb1 : TextBitmap G)
    (hf : (s ref).font = some F)
    (hok : TextBitmap.construct layout s ref t m c = Except.ok (s1, tb1)) :
    (applyWrites layout ws (s1, tb1)).1 ref = ws.foldl writeField (s1 ref)
    ∧ (constructed layout (applyWrites layout ws (s1, tb1)).1 ref t m c).map
        (fun p => p.2.geometry.data) =
      some (applyWrites layout ws (s1, tb1)).2.geometry.data := by
  have hc := construct_ok layout t m c hf
  rw [hok] at hc
  simp only [Except.ok.injEq, Prod.mk.injEq] at hc
  obtain ⟨hs, htb⟩ := hc
  have hfill : (s1 ref).filled := by
    rw [hs, Store.write_same]
    exact mergeDefaults_filled _ F hf
  have hdata : tb1.geometry.data = layout (s1 ref) := by
    rw [hs, htb, Store.write_same]
  have href : tb1.configRef = ref := by rw [htb]
  have h := writes_then_fresh layout ws (s1, tb1) t m c
    (by show (s1 tb1.configRef).filled; rw [href]; exact hfill)
    (by show tb1.geometry.data = layout (s1 tb1.configRef); rw [href]; exact hdata)
  simpa [href] using h

/-- C6 witness: over the concrete store, a three-write sequence (text, width,
then text again) leaves the caller's config equal to the folded writes and the
geometry equal to a fresh construction from the final store. -/
theorem C6_path_independence_witness :
    (wS1 0).font = some wFont
    ∧ TextBitmap.construct (id : Config → Config) wS1 0 7 none none =
        Except.ok (wRes.1, wRes.2)
    ∧ (applyWrites (id : Config → Config)
        [LayoutWrite.text "Hi", LayoutWrite.width 200, LayoutWrite.text "Bye"]
        (wRes.1, wRes.2)).1 0 =
      [LayoutWrite.text "Hi", LayoutWrite.width 200, LayoutWrite.text "Bye"].foldl
        writeField (wRes.1 0)
    ∧ (constructed (id : Config → Config)
        (applyWrites (id : Config → Config)
          [LayoutWrite.text "Hi", LayoutWrite.width 200, LayoutWrite.text "Bye"]
          (wRes.1, wRes.2)).1 0 7 none none).map (fun p => p.2.geometry.data) =
      some (applyWrites (id : Config → Config)
          [LayoutWrite.text "Hi", LayoutWrite.width 200, LayoutWrite.text "Bye"]
          (wRes.1, wRes.2)).2.geometry.data := by
  have h := C6_path_independence (id : Config → Config) wS1 0 7 none none wFont
    [LayoutWrite.text "Hi", LayoutWrite.width 200, LayoutWrite.text "Bye"]
    wRes.1 wRes.2 rfl rfl
  exact ⟨rfl, rfl, h.1, h.2⟩

end NunuStudio
